import Mathlib

/-
Verification development for the switch_mgmt_onboarder repository
(switch_ip_check: Mist switch management-network reconciliation).

The definitions below are a shallow embedding, translated line by line from
src/mist/address.py and src/mist/org.py.  Machine integers are modelled as
Nat (IPv4 address ints are < 2^32 by construction); fallible Python code
(dict key access, `ipaddress` parsing) returns `Except String` values whose
error payloads stand for the raised Python exceptions; Python dicts with a
known key set are modelled as structures with `Option` fields where `none`
models an absent key (or, where documented, a JSON null value).
-/

namespace SwitchIpCheck

/-! ## Python scalar values

A switch record stores its resolved VLAN either as an `int` (declared side)
or as a `str` (observed side, produced by `str.strip`).  Python `==` between
an `int` and a `str` is always `False`; `PyVal` equality mirrors that. -/

inductive PyVal where
  | int (n : Int)
  | str (s : String)
deriving Repr, DecidableEq

/-- Python f-string rendering of a `PyVal` (an int renders in decimal, a
string renders as itself), as used in the VLAN-mismatch reason message. -/
def pyDisplay : PyVal → String
  | PyVal.int n => toString n
  | PyVal.str s => s

/-! ## src/mist/address.py — IP address and network utilities

`ipaddress.IPv4Address(str)` parses exactly a dotted quad of four decimal
octets, each at most 3 ASCII digits, value ≤ 255, with leading zeros
rejected (CPython ≥ 3.9.5 behaviour).  The parsed address is its integer
value (< 2^32).  Parse failures (AddressValueError) are modelled as `none`
here and converted to `Except.error` at the call sites that let the
exception escape. -/

/-- One dotted-quad octet, per CPython `ipaddress._parse_octet`. -/
def parseOctet (s : String) : Option Nat :=
  if s.length = 0 then none
  else if ¬ (s.toList.all Char.isDigit) then none
  else if s.length > 3 then none
  else if s ≠ "0" ∧ s.toList.headD ' ' = '0' then none
  else
    let n := s.toList.foldl (fun acc c => acc * 10 + (c.toNat - 48)) 0
    if n > 255 then none else some n

/-- Python `s.split(sep)` for a single-character separator, on the char
list: `""` splits to `[""]`, and empty fields are kept. -/
def splitChar (sep : Char) : List Char → List (List Char)
  | [] => [[]]
  | c :: rest =>
    match splitChar sep rest with
    | [] => [[]]
    | cur :: parts => if c = sep then [] :: cur :: parts else (c :: cur) :: parts

/-- Python `s.split(sep)` for a single-character separator. -/
def pySplit (s : String) (sep : Char) : List String :=
  (splitChar sep s.toList).map String.mk

/-- `IPv4Address(s)` as an integer, per CPython `_ip_int_from_string`:
split on the dots, demand exactly four octets. -/
def parseIPv4Address (s : String) : Option Nat :=
  if s = "" then none
  else
    match pySplit s '.' with
    | [a, b, c, d] =>
      match parseOctet a, parseOctet b, parseOctet c, parseOctet d with
      | some x, some y, some z, some w => some (((x * 256 + y) * 256 + z) * 256 + w)
      | _, _, _, _ => none
    | _ => none

/-- An `ipaddress.IPv4Network` value: its network address as an integer and
its mask length (`prefixlen`). -/
structure IPv4Net where
  netaddr : Nat
  plen : Nat
deriving Repr, DecidableEq

/-- The number of host addresses spanned by the network (2^(32 - plen)). -/
def hostSize (n : IPv4Net) : Nat := 2 ^ (32 - n.plen)

/-- `ip in network` for an `IPv4Address`, per CPython
`_BaseNetwork.__contains__`: `ip & netmask == network_address`, written
here with truncating division (`ip & mask = ip / 2^h * 2^h` when the mask
has `plen` leading one bits). -/
def IPv4Net.containsAddr (n : IPv4Net) (ip : Nat) : Bool :=
  decide (ip / hostSize n * hostSize n = n.netaddr)

/-- The netmask integer with `p` leading one bits. -/
def maskValue (p : Nat) : Nat := 2 ^ 32 - 2 ^ (32 - p)

/-- Recover a mask length from a netmask integer, per CPython
`_prefix_from_ip_int` (fails unless the integer has the form
`p` ones followed by zeros). -/
def maskLenOf (m : Nat) : Option Nat :=
  (List.range 33).find? (fun p => decide (m = maskValue p))

/-- A mask given as a decimal prefix-length string, per CPython
`_prefix_from_prefix_string` (ASCII digits, value ≤ 32). -/
def parsePrefixLen (s : String) : Option Nat :=
  if s ≠ "" ∧ s.toList.all Char.isDigit then
    let n := s.toList.foldl (fun acc c => acc * 10 + (c.toNat - 48)) 0
    if n ≤ 32 then some n else none
  else none

/-- The mask part of `IPv4Network(..)`, per CPython `_make_netmask`: first
try a prefix-length string, else parse a dotted quad and accept it as a
netmask or as a hostmask (the hostmask branch XORs with 2^32 - 1, written
here as subtraction from 2^32 - 1, which is the same on values < 2^32). -/
def parseNetmask (s : String) : Option Nat :=
  match parsePrefixLen s with
  | some p => some p
  | none =>
    match parseIPv4Address s with
    | none => none
    | some m =>
      match maskLenOf m with
      | some p => some p
      | none => maskLenOf (2 ^ 32 - 1 - m)

/-- `get_network(address, netmask)` from src/mist/address.py (lines 17-26):
`IPv4Network(f"{address}/{netmask}", strict=False)`.  The f-string is split
on every slash (more than one slash raises); with `strict=False` the
network address is the given address masked down. -/
def get_network (address netmask : String) : Except String IPv4Net :=
  match pySplit (address ++ "/" ++ netmask) '/' with
  | [a, m] =>
    match parseIPv4Address a with
    | none => Except.error "AddressValueError"
    | some ip =>
      match parseNetmask m with
      | none => Except.error "NetmaskValueError"
      | some p => Except.ok { netaddr := ip / 2 ^ (32 - p) * 2 ^ (32 - p), plen := p }
  | _ => Except.error "AddressValueError: only one slash permitted"

/-- `check_network_contains_ip(network, address)` from src/mist/address.py
(lines 29-41): `IPv4Address(address)` (which RAISES on a malformed string —
there is no try/except in the source), then `ip in network`. -/
def check_network_contains_ip (network : IPv4Net) (address : String) : Except String Bool :=
  match parseIPv4Address address with
  | none => Except.error "AddressValueError"
  | some ip => if network.containsAddr ip then Except.ok true else Except.ok false

/-! ## Data model — the JSON dicts handled by src/mist/org.py

`Option` on a field means the dict key may be absent; accessing an absent
key raises `KeyError`, modelled as `Except.error`.  Exception: on
`IpConfig.network` the code does an unguarded access (org.py line 128) but
then only tests Python truthiness, so `none` there models a present key
whose value is null/None (a truly absent `network` key is outside this
model). -/

/-- A switch's declared management config (`switch['ip_config']`).
`vlan` is the key written by normalization (org.py lines 128-136); raw
device records from the API carry no `vlan` key (`none`). -/
structure IpConfig where
  network : Option String
  ip : Option String
  netmask : Option String
  gateway : Option String
  vlan : Option PyVal := none
deriving Repr, DecidableEq

/-- A switch's observed runtime state (`switch['ip_stat']`, stored as
`ip_actual`).  `ips` is the VLAN-label → IP dict; Python dicts iterate in
insertion order with unique keys, modelled as an association list.  `vlan`
is the key written by the normalization loop (org.py lines 123-127). -/
structure IpStat where
  ip : Option String
  netmask : Option String
  gateway : Option String
  ips : List (String × String)
  vlan : Option PyVal := none
deriving Repr, DecidableEq

/-- An org-level network template: its id and the `networks` dict, mapping
a network name to that network's `vlan_id` (the only field the code
reads). -/
structure NetworkTemplate where
  id : String
  networks : List (String × Int)
deriving Repr, DecidableEq

/-- A site record.  `network_template` is the key attached by
`match_network_template_to_site` (org.py lines 92-100); `none` models the
key being absent, so the unguarded access at org.py line 129 raises. -/
structure Site where
  id : String
  name : String
  networktemplate_id : Option String := none
  network_template : Option NetworkTemplate := none
deriving Repr, DecidableEq

/-- A raw per-site device record as returned by
`get_switches_stats` (fields read by `load_switches`). -/
structure RawSwitch where
  name : String
  id : String
  mac : String
  ip_config : IpConfig
  ip_stat : IpStat
deriving Repr, DecidableEq

/-- A normalized switch record (`new_switch` built at org.py lines
112-122), plus the five verdict keys that `check_switches` writes onto the
same dict (org.py lines 187-195), `none` until written. -/
structure Switch where
  name : String
  site : String
  site_id : String
  device_id : String
  mac : String
  mac_str : String
  ip_config : IpConfig
  ip_actual : IpStat
  net_obj : Option IPv4Net
  ip_match : Option Bool := none
  netmask_match : Option Bool := none
  gateway_match : Option Bool := none
  vlan_match : Option Bool := none
  gateway_on_net : Option Bool := none
deriving Repr, DecidableEq

/-- Python dict lookup on an association list (first binding wins; dict
keys are unique so this is the only binding). -/
def assocLookup {α : Type} (k : String) : List (String × α) → Option α
  | [] => none
  | (k₀, v) :: rest => if k = k₀ then some v else assocLookup k rest

/-! ## src/mist/org.py — normalization (`Org.load_switches`) -/

/-- Split a char list into successive pairs, as Python
`[mac[i:i+2] for i in range(0, len(mac), 2)]` (a trailing odd char forms a
1-char chunk). -/
def chunks2 : List Char → List (List Char)
  | [] => []
  | [a] => [[a]]
  | a :: b :: rest => [a, b] :: chunks2 rest

/-- `':'.join([mac[i:i+2].upper() for i in range(0, len(mac), 2)])`
(org.py lines 111 and 118). -/
def mac_str_of (mac : String) : String :=
  String.intercalate ":" ((chunks2 mac.toList).map (fun c => String.mk (c.map Char.toUpper)))

/-- The character set of Python `vlan.strip('vlan')`. -/
def isVlanChar (c : Char) : Bool := c = 'v' || c = 'l' || c = 'a' || c = 'n'

/-- Python `s.strip('vlan')` (org.py line 125): removes the characters
v, l, a, n from BOTH ends of the string. -/
def pyStrip (s : String) : String :=
  String.mk (((s.toList.dropWhile isVlanChar).reverse.dropWhile isVlanChar).reverse)

/-- Modelled from the spec: the spec (§4.3 step 4) and claim C4 describe
the observed VLAN label as "stripped of any non-numeric prefix token",
i.e. stripping only from the front.  This definition follows those words,
to be compared against the source's `pyStrip`. -/
def specLeadingStrip (s : String) : String :=
  String.mk (s.toList.dropWhile isVlanChar)

/-- `match_network_template_to_site` (org.py lines 92-100): when the site
names a template id (key present and truthy) attach the first template
with that id; otherwise leave the site unchanged. -/
def match_network_template_to_site (templates : List NetworkTemplate) (site : Site) : Site :=
  match site.networktemplate_id with
  | some tid =>
    if tid ≠ "" then
      match templates.filter (fun nt => decide (nt.id = tid)) with
      | [] => site
      | nt :: _ => { site with network_template := some nt }
    else site
  | none => site

/-- org.py line 121: `get_network(...) if 'ip' in switch['ip_config'] else
None`.  The netmask key is accessed without a guard, so a declared IP with
no declared netmask raises `KeyError`. -/
def netObjStep (sw : RawSwitch) : Except String (Option IPv4Net) :=
  match sw.ip_config.ip with
  | none => Except.ok none
  | some ipstr =>
    match sw.ip_config.netmask with
    | none => Except.error "KeyError: netmask"
    | some nm =>
      match get_network ipstr nm with
      | Except.error e => Except.error e
      | Except.ok n => Except.ok (some n)

/-- The body of the loop at org.py lines 123-127, folded over the `ips`
dict in iteration order: every entry overwrites `ip_actual['vlan']`, with
the stripped label on a match and `0` otherwise (so the last entry wins). -/
def vlanScan (obsIp : String) (init : Option PyVal) (l : List (String × String)) : Option PyVal :=
  l.foldl (fun _ e => if obsIp = e.2 then some (PyVal.str (pyStrip e.1)) else some (PyVal.int 0)) init

/-- org.py lines 123-127.  With an empty `ips` dict the loop body never
runs and `ip_actual['vlan']` is left as it was; otherwise
`ip_actual['ip']` is read (KeyError if the key is absent) and the loop
runs. -/
def obsVlanStep (sw : RawSwitch) : Except String (Option PyVal) :=
  if sw.ip_stat.ips.isEmpty then Except.ok sw.ip_stat.vlan
  else
    match sw.ip_stat.ip with
    | none => Except.error "KeyError: ip"
    | some obsIp => Except.ok (vlanScan obsIp sw.ip_stat.vlan sw.ip_stat.ips)

/-- org.py lines 128-136: resolve the declared VLAN from the declared
network name.  Returns the value written to `ip_config['vlan']` and
whether `logger.error` fired.  A truthy non-"default" name is looked up
with bare dict accesses `site['network_template']['networks'][name]
['vlan_id']`, so a site without an attached template, or a template whose
mapping lacks the name, raises `KeyError`. -/
def declVlanStep (site : Site) (sw : RawSwitch) : Except String (PyVal × Bool) :=
  match sw.ip_config.network with
  | some netname =>
    if netname ≠ "" ∧ netname ≠ "default" then
      match site.network_template with
      | none => Except.error "KeyError: network_template"
      | some nt =>
        match assocLookup netname nt.networks with
        | none => Except.error ("KeyError: " ++ netname)
        | some vid => Except.ok (PyVal.int vid, false)
    else if netname = "default" then Except.ok (PyVal.int 1, false)
    else Except.ok (PyVal.int 0, true)
  | none => Except.ok (PyVal.int 0, true)

/-- The normalized switch assembled at org.py lines 110-136 once every
step has succeeded. -/
def mkLoadedSwitch (site : Site) (sw : RawSwitch) (no : Option IPv4Net)
    (actualVlan : Option PyVal) (declVlan : PyVal) : Switch :=
  { name := if sw.name.length < 1 then mac_str_of sw.mac else sw.name
    site := site.name
    site_id := site.id
    device_id := sw.id
    mac := sw.mac
    mac_str := mac_str_of sw.mac
    ip_config := { sw.ip_config with vlan := some declVlan }
    ip_actual := { sw.ip_stat with vlan := actualVlan }
    net_obj := no }

/-- One iteration of the inner loop of `load_switches` (org.py lines
109-137), in source evaluation order: the `new_switch` dict literal
(whose `net_obj` entry may raise), then the observed-VLAN loop, then
declared-VLAN resolution.  The Bool reports whether `logger.error` fired
for this switch. -/
def load_one_switch (site : Site) (sw : RawSwitch) : Except String (Switch × Bool) :=
  match netObjStep sw with
  | Except.error e => Except.error e
  | Except.ok no =>
    match obsVlanStep sw with
    | Except.error e => Except.error e
    | Except.ok actualVlan =>
      match declVlanStep site sw with
      | Except.error e => Except.error e
      | Except.ok (declVlan, logged) => Except.ok (mkLoadedSwitch site sw no actualVlan declVlan, logged)

/-- Sequential effectful map: a Python for-loop appending results, where
the first uncaught exception aborts the whole loop. -/
def mapME {α β : Type} (f : α → Except String β) : List α → Except String (List β)
  | [] => Except.ok []
  | a :: as =>
    match f a with
    | Except.error e => Except.error e
    | Except.ok b =>
      match mapME f as with
      | Except.error e => Except.error e
      | Except.ok bs => Except.ok (b :: bs)

def flattenL {α : Type} : List (List α) → List α
  | [] => []
  | l :: rest => l ++ flattenL rest

/-- `Org.load_switches` (org.py lines 102-138) over already-fetched
per-site device lists: there is no try/except around the loops, so any
per-switch `KeyError` or address parse error propagates and aborts the
whole load. -/
def load_switches (sites : List (Site × List RawSwitch)) : Except String (List (Switch × Bool)) :=
  match mapME (fun p => mapME (fun sw => load_one_switch p.1 sw) p.2) sites with
  | Except.error e => Except.error e
  | Except.ok nested => Except.ok (flattenL nested)

/-! ## src/mist/org.py — reconciliation (`Org.check_switches`) -/

/-- ANSI colour codes from src/mist/logger.py `TextColors`. -/
def colorWARNING : String := "\x1b[93m"

def colorENDC : String := "\x1b[0m"

/-- org.py line 202. -/
def reason_ip_mismatch : String :=
  colorWARNING ++ "Management Interface IP Mis-match" ++ colorENDC

/-- org.py line 204. -/
def reason_gw_mismatch : String :=
  colorWARNING ++ "Management Interface Gateway Mis-match" ++ colorENDC

/-- org.py line 206. -/
def reason_ip_gw_mismatch : String :=
  colorWARNING ++ "Management Interface IP/Gateway Mis-match" ++ colorENDC

/-- org.py line 208. -/
def reason_unknown : String :=
  colorWARNING ++ "Unknown failure" ++ colorENDC

/-- org.py line 210. -/
def reason_missing_dynamic : String :=
  colorWARNING ++ "Management Interface IP/Gateway Missing or Dynamic" ++ colorENDC

/-- org.py line 212: the VLAN mismatch reason, naming the declared and the
observed VLAN values. -/
def reason_vlan (cv av : PyVal) : String :=
  colorWARNING ++ "Management Interface VLAN Incorrect: Configured as VLAN " ++
    pyDisplay cv ++ " but is actually using VLAN " ++ pyDisplay av ++ colorENDC

/-- org.py lines 201-208: the initial reason chosen from the
`(ip_match, gateway_match)` pair inside the FAIL branch. -/
def initial_reason (im gm : Bool) : String :=
  if !im && gm then reason_ip_mismatch
  else if im && !gm then reason_gw_mismatch
  else if !im && !gm then reason_ip_gw_mismatch
  else reason_unknown

/-- The values computed for one switch by org.py lines 187-212: the five
stored match flags plus the local `result` and `reason` of that row. -/
structure Verdict where
  ip_match : Bool
  netmask_match : Bool
  gateway_match : Bool
  vlan_match : Bool
  gateway_on_net : Bool
  result : String
  reason : String
deriving Repr, DecidableEq

/-- org.py line 187: `(cfg['ip'] == act['ip']) if 'ip' in cfg else False`;
the observed side is accessed without a guard. -/
def ipMatchStep (cfg : IpConfig) (act : IpStat) : Except String Bool :=
  match cfg.ip with
  | none => Except.ok false
  | some cip =>
    match act.ip with
    | none => Except.error "KeyError: ip"
    | some aip => Except.ok (decide (cip = aip))

/-- org.py line 188, same shape for the netmask. -/
def netmaskMatchStep (cfg : IpConfig) (act : IpStat) : Except String Bool :=
  match cfg.netmask with
  | none => Except.ok false
  | some cnm =>
    match act.netmask with
    | none => Except.error "KeyError: netmask"
    | some anm => Except.ok (decide (cnm = anm))

/-- org.py line 189, same shape for the gateway. -/
def gatewayMatchStep (cfg : IpConfig) (act : IpStat) : Except String Bool :=
  match cfg.gateway with
  | none => Except.ok false
  | some cgw =>
    match act.gateway with
    | none => Except.error "KeyError: gateway"
    | some agw => Except.ok (decide (cgw = agw))

/-- org.py line 190: both VLAN values are read with bare dict accesses
(left side first); a switch whose `ips` dict was empty has no
`ip_actual['vlan']` key and raises here. -/
def vlanStep (cfg : IpConfig) (act : IpStat) : Except String (PyVal × PyVal) :=
  match cfg.vlan with
  | none => Except.error "KeyError: vlan"
  | some cv =>
    match act.vlan with
    | none => Except.error "KeyError: vlan"
    | some av => Except.ok (cv, av)

/-- org.py lines 192-195: `check_network_contains_ip(net_obj,
cfg['gateway'])` when `net_obj` is truthy, else `False`.  The gateway key
is read without a guard here, and the address parse inside may raise. -/
def gatewayOnNetStep (cfg : IpConfig) (no : Option IPv4Net) : Except String Bool :=
  match no with
  | none => Except.ok false
  | some net =>
    match cfg.gateway with
    | none => Except.error "KeyError: gateway"
    | some gw => check_network_contains_ip net gw

/-- org.py lines 196-212: the verdict and the single reason string, from
the computed flags and the two VLAN values.  `vlan_match` is Python `==`
on the two VLAN values (line 190).  In the FAIL branch the reason is
assigned in sequence — pair reason, then the gateway-on-net override, then
the VLAN override — so the last assignment wins. -/
def verdictOf (im nm gm : Bool) (cv av : PyVal) (gon : Bool) : Verdict :=
  let vm := decide (cv = av)
  if im && gm && gon then
    { ip_match := im, netmask_match := nm, gateway_match := gm, vlan_match := vm
      gateway_on_net := gon, result := "PASS", reason := "None" }
  else
    let r₀ := initial_reason im gm
    let r₁ := if !gon then reason_missing_dynamic else r₀
    let r₂ := if !vm then reason_vlan cv av else r₁
    { ip_match := im, netmask_match := nm, gateway_match := gm, vlan_match := vm
      gateway_on_net := gon, result := "FAIL", reason := r₂ }

/-- The per-switch body of `check_switches` (org.py lines 187-212), in
source evaluation order; reads only `ip_config`, `ip_actual` and
`net_obj`.  Any raised error is the one Python would raise first. -/
def evalFields (cfg : IpConfig) (act : IpStat) (no : Option IPv4Net) : Except String Verdict :=
  match ipMatchStep cfg act with
  | Except.error e => Except.error e
  | Except.ok im =>
    match netmaskMatchStep cfg act with
    | Except.error e => Except.error e
    | Except.ok nm =>
      match gatewayMatchStep cfg act with
      | Except.error e => Except.error e
      | Except.ok gm =>
        match vlanStep cfg act with
        | Except.error e => Except.error e
        | Except.ok (cv, av) =>
          match gatewayOnNetStep cfg no with
          | Except.error e => Except.error e
          | Except.ok gon => Except.ok (verdictOf im nm gm cv av gon)

/-- The five assignments `switch['ip_match'] = ...` through
`switch['gateway_on_net'] = ...` of org.py lines 187-195, applied to the
switch dict. -/
def applyVerdict (s : Switch) (v : Verdict) : Switch :=
  { s with ip_match := some v.ip_match, netmask_match := some v.netmask_match,
           gateway_match := some v.gateway_match, vlan_match := some v.vlan_match,
           gateway_on_net := some v.gateway_on_net }

/-- One full `check_switches` iteration on one switch: compute the verdict
values and store the five match flags back onto the switch dict (org.py
lines 187-212).  On an uncaught error Python leaves the keys assigned so
far and emits an error row; the claims below concern successful
evaluations only, so the partially-assigned error state is not
materialized here. -/
def check_one (s : Switch) : Except String (Switch × Verdict) :=
  match evalFields s.ip_config s.ip_actual s.net_obj with
  | Except.error e => Except.error e
  | Except.ok v => Except.ok (applyVerdict s v, v)

/-- The nested comprehension at org.py line 181:
`[s for s in self.switches for x in switch_list if s['mac'] == x]` —
for each switch, one copy per filter entry equal to its raw MAC. -/
def selectRows (xs : List String) : List Switch → List Switch
  | [] => []
  | s :: rest => (xs.filter (fun x => decide (s.mac = x))).map (fun _ => s) ++ selectRows xs rest

/-- org.py lines 180-183: `if switch_list:` — `None` AND the empty list
are falsy, so both leave the full switch list in place. -/
def filterSwitches (switches : List Switch) (switch_list : Option (List String)) : List Switch :=
  match switch_list with
  | none => switches
  | some xs => if xs.isEmpty then switches else selectRows xs switches

/-- `Org.check_switches` (org.py lines 173-218) reduced to its row
outcomes: one element per loop iteration (each iteration appends exactly
one line to the output table — a verdict row, or an error row when the
body raised, per the try/except at lines 186 and 214-217). -/
def check_switches (switches : List Switch) (switch_list : Option (List String)) :
    List (Except String Verdict) :=
  (filterSwitches switches switch_list).map (fun s =>
    match check_one s with
    | Except.error e => Except.error e
    | Except.ok r => Except.ok r.2)

/-! ## General lemmas about the embedding -/

theorem load_one_switch_ok {site : Site} {sw : RawSwitch} {s : Switch} {logged : Bool}
    (h : load_one_switch site sw = Except.ok (s, logged)) :
    ∃ no actualVlan declVlan,
      netObjStep sw = Except.ok no ∧
      obsVlanStep sw = Except.ok actualVlan ∧
      declVlanStep site sw = Except.ok (declVlan, logged) ∧
      s = mkLoadedSwitch site sw no actualVlan declVlan := by
  unfold load_one_switch at h
  cases hno : netObjStep sw with
  | error e => rw [hno] at h; simp at h
  | ok no =>
    rw [hno] at h
    cases hav : obsVlanStep sw with
    | error e => rw [hav] at h; simp at h
    | ok av =>
      rw [hav] at h
      cases hdl : declVlanStep site sw with
      | error e => rw [hdl] at h; simp at h
      | ok dl =>
        rw [hdl] at h
        obtain ⟨declVlan, logged₀⟩ := dl
        simp only [Except.ok.injEq, Prod.mk.injEq] at h
        exact ⟨no, av, declVlan, rfl, rfl, by rw [h.2], h.1.symm⟩

theorem evalFields_ok {cfg : IpConfig} {act : IpStat} {no : Option IPv4Net} {v : Verdict}
    (h : evalFields cfg act no = Except.ok v) :
    ∃ im nm gm cv av gon,
      ipMatchStep cfg act = Except.ok im ∧
      netmaskMatchStep cfg act = Except.ok nm ∧
      gatewayMatchStep cfg act = Except.ok gm ∧
      cfg.vlan = some cv ∧ act.vlan = some av ∧
      gatewayOnNetStep cfg no = Except.ok gon ∧
      v = verdictOf im nm gm cv av gon := by
  unfold evalFields at h
  cases him : ipMatchStep cfg act with
  | error e => rw [him] at h; simp at h
  | ok im =>
    rw [him] at h
    cases hnm : netmaskMatchStep cfg act with
    | error e => rw [hnm] at h; simp at h
    | ok nm =>
      rw [hnm] at h
      cases hgm : gatewayMatchStep cfg act with
      | error e => rw [hgm] at h; simp at h
      | ok gm =>
        rw [hgm] at h
        cases hvl : vlanStep cfg act with
        | error e => rw [hvl] at h; simp at h
        | ok p =>
          rw [hvl] at h
          obtain ⟨cv, av⟩ := p
          cases hgon : gatewayOnNetStep cfg no with
          | error e => rw [hgon] at h; simp at h
          | ok gon =>
            rw [hgon] at h
            simp only [Except.ok.injEq] at h
            have hv : cfg.vlan = some cv ∧ act.vlan = some av := by
              unfold vlanStep at hvl
              cases hc : cfg.vlan with
              | none => rw [hc] at hvl; simp at hvl
              | some cv₀ =>
                rw [hc] at hvl
                cases ha : act.vlan with
                | none => rw [ha] at hvl; simp at hvl
                | some av₀ =>
                  rw [ha] at hvl
                  simp only [Except.ok.injEq, Prod.mk.injEq] at hvl
                  exact ⟨by rw [hvl.1], by rw [hvl.2]⟩
            exact ⟨im, nm, gm, cv, av, gon, rfl, rfl, rfl, hv.1, hv.2, rfl, h.symm⟩

theorem verdictOf_flags (im nm gm : Bool) (cv av : PyVal) (gon : Bool) :
    (verdictOf im nm gm cv av gon).ip_match = im ∧
    (verdictOf im nm gm cv av gon).netmask_match = nm ∧
    (verdictOf im nm gm cv av gon).gateway_match = gm ∧
    (verdictOf im nm gm cv av gon).vlan_match = decide (cv = av) ∧
    (verdictOf im nm gm cv av gon).gateway_on_net = gon := by
  unfold verdictOf
  split <;> simp

theorem verdictOf_result (im nm gm : Bool) (cv av : PyVal) (gon : Bool) :
    (verdictOf im nm gm cv av gon).result = if im && gm && gon then "PASS" else "FAIL" := by
  unfold verdictOf
  split <;> simp_all

theorem verdictOf_reason_fail (im nm gm : Bool) (cv av : PyVal) (gon : Bool)
    (h : (im && gm && gon) = false) :
    (verdictOf im nm gm cv av gon).reason =
      (if decide (cv = av) = false then reason_vlan cv av
       else if gon = false then reason_missing_dynamic
       else initial_reason im gm) := by
  unfold verdictOf
  rw [if_neg (by simp [h])]
  by_cases hv : cv = av <;> cases gon <;> simp [hv]

theorem mapME_ok_of_mem {α β : Type} {f : α → Except String β} {l : List α} {ys : List β}
    (h : mapME f l = Except.ok ys) {a : α} (ha : a ∈ l) : ∃ y, f a = Except.ok y := by
  induction l generalizing ys with
  | nil => cases ha
  | cons b t ih =>
    unfold mapME at h
    cases hb : f b with
    | error e => rw [hb] at h; simp at h
    | ok y =>
      rw [hb] at h
      cases ht : mapME f t with
      | error e => rw [ht] at h; simp at h
      | ok bs =>
        cases ha with
        | head => exact ⟨y, hb⟩
        | tail _ hmem => exact ih ht hmem

theorem vlanScan_last (obsIp : String) (init : Option PyVal) (l : List (String × String))
    (lbl addr : String) (h : l.getLast? = some (lbl, addr)) :
    vlanScan obsIp init l =
      (if obsIp = addr then some (PyVal.str (pyStrip lbl)) else some (PyVal.int 0)) := by
  induction l generalizing init with
  | nil => simp at h
  | cons e t ih =>
    cases t with
    | nil =>
      simp only [List.getLast?_singleton, Option.some.injEq] at h
      subst h
      rfl
    | cons e₂ t₂ =>
      have hl : (e₂ :: t₂).getLast? = some (lbl, addr) := by
        rw [← List.getLast?_cons_cons]
        exact h
      unfold vlanScan at *
      rw [List.foldl_cons]
      exact ih _ hl

theorem netObjStep_isSome {sw : RawSwitch} {no : Option IPv4Net}
    (h : netObjStep sw = Except.ok no) : no.isSome ↔ sw.ip_config.ip.isSome := by
  unfold netObjStep at h
  split at h
  · simp_all
  · split at h
    · simp_all
    · split at h
      · simp_all
      · simp only [Except.ok.injEq] at h
        subst h
        simp_all

theorem div_mul_eq_iff_range (E N ip : Nat) (hE : 0 < E) (hN : N % E = 0) :
    ip / E * E = N ↔ N ≤ ip ∧ ip ≤ N + (E - 1) := by
  constructor
  · intro h
    have hmod := Nat.div_add_mod ip E
    have hlt : ip % E < E := Nat.mod_lt _ hE
    have hc : E * (ip / E) = ip / E * E := Nat.mul_comm _ _
    rw [hc, h] at hmod
    constructor
    · calc N = ip / E * E := h.symm
        _ ≤ ip := Nat.div_mul_le_self ip E
    · omega
  · rintro ⟨h1, h2⟩
    have hdvd : E ∣ N := Nat.dvd_of_mod_eq_zero hN
    have hNE : N / E * E = N := Nat.div_mul_cancel hdvd
    have hq : ip / E = N / E := by
      apply Nat.div_eq_of_lt_le
      · rw [hNE]; exact h1
      · rw [Nat.add_mul, Nat.one_mul, hNE]; omega
    rw [hq, hNE]

/-- `containsAddr` (the `ip & mask == network_address` test of the source)
agrees with the spec's "lies within the network's range" phrasing whenever
the network address is aligned to its mask — which `get_network` always
produces, since it masks the address down. -/
theorem containsAddr_iff_range (n : IPv4Net) (ip : Nat)
    (ha : n.netaddr % hostSize n = 0) :
    n.containsAddr ip = true ↔ n.netaddr ≤ ip ∧ ip ≤ n.netaddr + (hostSize n - 1) := by
  unfold IPv4Net.containsAddr
  rw [decide_eq_true_eq]
  exact div_mul_eq_iff_range (hostSize n) n.netaddr ip (pow_pos (by norm_num) _) ha

/-- Every successful declared-VLAN resolution yields a Python `int`. -/
theorem declVlanStep_int {site : Site} {sw : RawSwitch} {dv : PyVal} {logged : Bool}
    (h : declVlanStep site sw = Except.ok (dv, logged)) : ∃ k : Int, dv = PyVal.int k := by
  unfold declVlanStep at h
  split at h
  · split at h
    · split at h
      · simp at h
      · split at h
        · simp at h
        · simp only [Except.ok.injEq, Prod.mk.injEq] at h
          exact ⟨_, h.1.symm⟩
    · split at h
      all_goals simp only [Except.ok.injEq, Prod.mk.injEq] at h
      all_goals exact ⟨_, h.1.symm⟩
  · simp only [Except.ok.injEq, Prod.mk.injEq] at h
    exact ⟨0, h.1.symm⟩

/-- The `"default"` branch of declared-VLAN resolution (org.py lines
131-133). -/
theorem declVlanStep_default {site : Site} {sw : RawSwitch}
    (h : sw.ip_config.network = some "default") :
    declVlanStep site sw = Except.ok (PyVal.int 1, false) := by
  unfold declVlanStep
  rw [h]
  simp

/-- The fall-through branch of declared-VLAN resolution (org.py lines
134-136): a null or empty network name yields VLAN 0 with an error
logged. -/
theorem declVlanStep_unset {site : Site} {sw : RawSwitch}
    (h : sw.ip_config.network = none ∨ sw.ip_config.network = some "") :
    declVlanStep site sw = Except.ok (PyVal.int 0, true) := by
  unfold declVlanStep
  rcases h with h | h <;> simp [h]

/-- With an empty `ips` dict the normalization loop leaves
`ip_actual['vlan']` untouched. -/
theorem load_obsVlan_empty {site : Site} {sw : RawSwitch} {s : Switch} {logged : Bool}
    (h : load_one_switch site sw = Except.ok (s, logged))
    (hips : sw.ip_stat.ips = []) : s.ip_actual.vlan = sw.ip_stat.vlan := by
  obtain ⟨no, av, dv, hno, hav, hdl, hs⟩ := load_one_switch_ok h
  subst hs
  have hvl : (mkLoadedSwitch site sw no av dv).ip_actual.vlan = av := rfl
  unfold obsVlanStep at hav
  rw [hips] at hav
  simp only [List.isEmpty_nil, if_true, Except.ok.injEq] at hav
  rw [hvl, ← hav]

/-- With a nonempty `ips` dict the last-examined entry decides the
observed VLAN: the stripped label on a match, `0` otherwise. -/
theorem load_obsVlan_last {site : Site} {sw : RawSwitch} {s : Switch} {logged : Bool}
    (h : load_one_switch site sw = Except.ok (s, logged))
    {lbl addr : String} (hlast : sw.ip_stat.ips.getLast? = some (lbl, addr)) :
    ∃ obsIp, sw.ip_stat.ip = some obsIp ∧
      s.ip_actual.vlan =
        (if obsIp = addr then some (PyVal.str (pyStrip lbl)) else some (PyVal.int 0)) := by
  obtain ⟨no, av, dv, hno, hav, hdl, hs⟩ := load_one_switch_ok h
  subst hs
  have hvl : (mkLoadedSwitch site sw no av dv).ip_actual.vlan = av := rfl
  have hne : sw.ip_stat.ips ≠ [] := by
    intro hc
    rw [hc] at hlast
    exact Option.noConfusion hlast
  have hemp : sw.ip_stat.ips.isEmpty = false := by
    cases hips : sw.ip_stat.ips with
    | nil => exact absurd hips hne
    | cons e t => rfl
  unfold obsVlanStep at hav
  rw [hemp] at hav
  simp only [Bool.false_eq_true, if_false] at hav
  cases hip : sw.ip_stat.ip with
  | none => rw [hip] at hav; exact absurd hav (by simp)
  | some obsIp =>
    rw [hip] at hav
    simp only [Except.ok.injEq] at hav
    refine ⟨obsIp, rfl, ?_⟩
    rw [hvl, ← hav]
    exact vlanScan_last obsIp sw.ip_stat.vlan sw.ip_stat.ips lbl addr hlast

/-- The declared VLAN written by normalization is always a Python int. -/
theorem load_declVlan_int {site : Site} {sw : RawSwitch} {s : Switch} {logged : Bool}
    (h : load_one_switch site sw = Except.ok (s, logged)) :
    ∃ k : Int, s.ip_config.vlan = some (PyVal.int k) := by
  obtain ⟨no, av, dv, hno, hav, hdl, hs⟩ := load_one_switch_ok h
  subst hs
  obtain ⟨k, hk⟩ := declVlanStep_int hdl
  exact ⟨k, by rw [show (mkLoadedSwitch site sw no av dv).ip_config.vlan = some dv from rfl, hk]⟩

/-- A duplicate-free filter list keeps a given MAC at most once. -/
theorem filter_eq_of_nodup (a : String) (xs : List String) (h : xs.Nodup) :
    xs.filter (fun x => decide (a = x)) = if a ∈ xs then [a] else [] := by
  induction xs with
  | nil => simp
  | cons y t ih =>
    rw [List.nodup_cons] at h
    by_cases hy : a = y
    · subst hy
      rw [List.filter_cons_of_pos (by simp)]
      rw [ih h.2]
      simp [h.1]
    · rw [List.filter_cons_of_neg (by simp [hy])]
      rw [ih h.2]
      by_cases hm : a ∈ t <;> simp [hm, hy]

theorem selectRows_nodup (xs : List String) (h : xs.Nodup) (switches : List Switch) :
    selectRows xs switches = switches.filter (fun s => decide (s.mac ∈ xs)) := by
  induction switches with
  | nil => rfl
  | cons s rest ih =>
    unfold selectRows
    rw [ih, filter_eq_of_nodup s.mac xs h]
    by_cases hm : s.mac ∈ xs
    · rw [if_pos hm, List.filter_cons_of_pos (by simp [hm])]
      simp
    · rw [if_neg hm, List.filter_cons_of_neg (by simp [hm])]
      simp

theorem applyVerdict_ip_config (s : Switch) (v : Verdict) :
    (applyVerdict s v).ip_config = s.ip_config := rfl

theorem applyVerdict_ip_actual (s : Switch) (v : Verdict) :
    (applyVerdict s v).ip_actual = s.ip_actual := rfl

theorem applyVerdict_net_obj (s : Switch) (v : Verdict) :
    (applyVerdict s v).net_obj = s.net_obj := rfl

theorem applyVerdict_idem (s : Switch) (v : Verdict) :
    applyVerdict (applyVerdict s v) v = applyVerdict s v := rfl

/-! ## The claims -/

/-- Claim C3: for every switch whose evaluation completes, the verdict is
`PASS` iff `ip_match`, `gateway_match` and `gateway_on_net` are all true.
`netmask_match` and `vlan_match` are still computed and recorded in the
verdict (second and third conjuncts), but by the iff they cannot turn a
PASS into a FAIL. -/
theorem c3_pass_iff_reachability (cfg : IpConfig) (act : IpStat) (no : Option IPv4Net)
    (v : Verdict) (h : evalFields cfg act no = Except.ok v) :
    (v.result = "PASS" ↔ v.ip_match = true ∧ v.gateway_match = true ∧ v.gateway_on_net = true) ∧
    (∃ nm, netmaskMatchStep cfg act = Except.ok nm ∧ v.netmask_match = nm) ∧
    (∃ cv av, cfg.vlan = some cv ∧ act.vlan = some av ∧ v.vlan_match = decide (cv = av)) := by
  obtain ⟨im, nm, gm, cv, av, gon, him, hnm, hgm, hcv, hav, hgon, hv⟩ := evalFields_ok h
  obtain ⟨f1, f2, f3, f4, f5⟩ := verdictOf_flags im nm gm cv av gon
  subst hv
  refine ⟨?_, ⟨nm, hnm, f2⟩, ⟨cv, av, hcv, hav, f4⟩⟩
  rw [verdictOf_result, f1, f3, f5]
  cases im <;> cases gm <;> cases gon <;> simp

/-- Claim C6: every switch with a `FAIL` verdict gets exactly one reason
string — the single `reason` field — and the override order is total: a
false `vlan_match` forces the VLAN reason (naming both VLAN values), else
a false `gateway_on_net` forces the missing-or-dynamic reason, else the
initial reason chosen from the `(ip_match, gateway_match)` pair stands. -/
theorem c6_reason_priority (cfg : IpConfig) (act : IpStat) (no : Option IPv4Net)
    (v : Verdict) (h : evalFields cfg act no = Except.ok v) (hf : v.result = "FAIL") :
    ∃ cv av, cfg.vlan = some cv ∧ act.vlan = some av ∧
      v.reason = (if v.vlan_match = false then reason_vlan cv av
                  else if v.gateway_on_net = false then reason_missing_dynamic
                  else initial_reason v.ip_match v.gateway_match) := by
  obtain ⟨im, nm, gm, cv, av, gon, him, hnm, hgm, hcv, hav, hgon, hv⟩ := evalFields_ok h
  obtain ⟨f1, f2, f3, f4, f5⟩ := verdictOf_flags im nm gm cv av gon
  subst hv
  have hcond : (im && gm && gon) = false := by
    cases hc : (im && gm && gon) with
    | false => rfl
    | true =>
      rw [verdictOf_result, hc, if_pos rfl] at hf
      exact absurd hf (by decide)
  refine ⟨cv, av, hcv, hav, ?_⟩
  rw [verdictOf_reason_fail im nm gm cv av gon hcond, f1, f3, f4, f5]

/-- Claim C10: evaluation is idempotent.  Re-running the per-switch body
of `check_switches` on the already-evaluated switch (whose `ip_config`,
`ip_actual` and `net_obj` were not changed by the first run) succeeds
again, reproduces the same stored flags, and yields the same verdict row
(all seven verdict values, `result` and `reason` included). -/
theorem c10_idempotent (s s' : Switch) (v : Verdict)
    (h : check_one s = Except.ok (s', v)) : check_one s' = Except.ok (s', v) := by
  unfold check_one at h ⊢
  cases he : evalFields s.ip_config s.ip_actual s.net_obj with
  | error e => rw [he] at h; simp at h
  | ok v₀ =>
    rw [he] at h
    simp only [Except.ok.injEq, Prod.mk.injEq] at h
    obtain ⟨hs, hv⟩ := h
    subst hv
    subst hs
    rw [applyVerdict_ip_config, applyVerdict_ip_actual, applyVerdict_net_obj, he]
    rfl

/-- Claim C7: declared-VLAN resolution.  A declared network name equal to
`"default"` yields declared VLAN 1 for any site, whatever its template
holds; a null or empty declared network name yields declared VLAN 0 with
a resolution failure logged through `logger.error`. -/
theorem c7_declared_vlan_default_and_unset (site : Site) (sw : RawSwitch) (s : Switch)
    (logged : Bool) (h : load_one_switch site sw = Except.ok (s, logged)) :
    (sw.ip_config.network = some "default" → s.ip_config.vlan = some (PyVal.int 1)) ∧
    ((sw.ip_config.network = none ∨ sw.ip_config.network = some "") →
       s.ip_config.vlan = some (PyVal.int 0) ∧ logged = true) := by
  obtain ⟨no, av, dv, hno, hav, hdl, hs⟩ := load_one_switch_ok h
  subst hs
  have hvl : (mkLoadedSwitch site sw no av dv).ip_config.vlan = some dv := rfl
  constructor
  · intro hd
    rw [declVlanStep_default hd] at hdl
    simp only [Except.ok.injEq, Prod.mk.injEq] at hdl
    rw [hvl, ← hdl.1]
  · intro hu
    rw [declVlanStep_unset hu] at hdl
    simp only [Except.ok.injEq, Prod.mk.injEq] at hdl
    exact ⟨by rw [hvl, ← hdl.1], hdl.2.symm⟩

/-- Claim C8: for every normalized switch, `net_obj` is present iff the
declared config carries an IP; and a switch lacking a declared IP has no
`net_obj`, so whenever its evaluation completes, `gateway_on_net` comes
out false and the verdict is `FAIL`. -/
theorem c8_net_obj_iff_declared_ip (site : Site) (sw : RawSwitch) (s : Switch)
    (logged : Bool) (h : load_one_switch site sw = Except.ok (s, logged)) :
    (s.net_obj.isSome ↔ s.ip_config.ip.isSome) ∧
    (s.ip_config.ip = none →
      s.net_obj = none ∧
      ∀ v, evalFields s.ip_config s.ip_actual s.net_obj = Except.ok v →
        v.gateway_on_net = false ∧ v.result = "FAIL") := by
  obtain ⟨no, av, dv, hno, hav, hdl, hs⟩ := load_one_switch_ok h
  subst hs
  have hcfg : (mkLoadedSwitch site sw no av dv).ip_config.ip = sw.ip_config.ip := rfl
  have hnet : (mkLoadedSwitch site sw no av dv).net_obj = no := rfl
  constructor
  · rw [hcfg, hnet]
    exact netObjStep_isSome hno
  · intro hip
    rw [hcfg] at hip
    have hno_none : no = none := by
      have hiff := netObjStep_isSome hno
      cases no with
      | none => rfl
      | some n => rw [hip] at hiff; simp at hiff
    refine ⟨by rw [hnet, hno_none], ?_⟩
    intro v hv
    obtain ⟨im, nm, gm, cv, av₂, gon, him, hnm, hgm, hcv, hav₂, hgon, hveq⟩ := evalFields_ok hv
    have him₀ : im = false := by
      unfold ipMatchStep at him
      rw [hcfg, hip] at him
      simp only [Except.ok.injEq] at him
      exact him.symm
    have hgon₀ : gon = false := by
      unfold gatewayOnNetStep at hgon
      rw [hnet, hno_none] at hgon
      simp only [Except.ok.injEq] at hgon
      exact hgon.symm
    subst hveq
    subst him₀
    subst hgon₀
    obtain ⟨f1, f2, f3, f4, f5⟩ := verdictOf_flags false nm gm cv av₂ false
    refine ⟨f5, ?_⟩
    rw [verdictOf_result]
    simp

/-- Concrete site/device records used to instantiate the claims. -/
def siteLab : Site := { id := "site-1", name := "Lab" }

/-- A device whose `ips` dict has the single entry `"2vlan" → 10.0.0.5`
matching its observed management IP: `"2vlan".strip('vlan')` is `"2"`,
while stripping only a leading token leaves `"2vlan"` unchanged. -/
def rawTrailingLabel : RawSwitch :=
  { name := "sw1", id := "dev-1", mac := "aabbccddeeff",
    ip_config := { network := some "default", ip := none, netmask := none, gateway := none },
    ip_stat := { ip := some "10.0.0.5", netmask := none, gateway := none,
                 ips := [("2vlan", "10.0.0.5")] } }

/-- Claim C4, counterexample to "(prefix-stripped)": on the matching label
`"2vlan"` the code stores `"2"` (Python `strip` removes the characters
v, l, a, n from both ends), while stripping only a leading prefix leaves
`"2vlan"`. -/
theorem c4_counterexample :
    (load_one_switch siteLab rawTrailingLabel).map (fun r => r.1.ip_actual.vlan) =
      Except.ok (some (PyVal.str "2")) ∧
    specLeadingStrip "2vlan" = "2vlan" ∧
    some (PyVal.str "2") ≠ some (PyVal.str (specLeadingStrip "2vlan")) := by
  refine ⟨rfl, rfl, ?_⟩
  decide

/-- Claim C4 (amended): after normalization iterates the reported VLAN→IP
mapping, the observed VLAN equals the label of the last-examined entry
stripped of the characters v, l, a, n from both ends when that entry's IP
equals the observed management IP, and equals `0` when the last-examined
entry does not match — even if an earlier entry matched; with an empty
mapping the field is left exactly as it was (never set by this step). -/
theorem c4_last_entry_wins (site : Site) (sw : RawSwitch) (s : Switch) (logged : Bool)
    (h : load_one_switch site sw = Except.ok (s, logged)) :
    (sw.ip_stat.ips = [] → s.ip_actual.vlan = sw.ip_stat.vlan) ∧
    (∀ lbl addr, sw.ip_stat.ips.getLast? = some (lbl, addr) →
       ∃ obsIp, sw.ip_stat.ip = some obsIp ∧
         s.ip_actual.vlan =
           (if obsIp = addr then some (PyVal.str (pyStrip lbl)) else some (PyVal.int 0))) :=
  ⟨fun hips => load_obsVlan_empty h hips,
   fun _ _ hlast => load_obsVlan_last h hlast⟩

/-- Claim C5: when the last-examined mapping entry matches the observed
management IP, the observed VLAN is stored as a Python string (the label
stripped of v, l, a, n at both ends) while the declared VLAN is always a
Python int (template vlan_id, 1, or 0); Python `==` between an int and a
str is always false, so `vlan_match` is false even when the label's digits
equal the declared VLAN number. -/
theorem c5_vlan_type_mismatch (site : Site) (sw : RawSwitch) (s : Switch) (logged : Bool)
    (h : load_one_switch site sw = Except.ok (s, logged))
    (lbl addr : String) (hlast : sw.ip_stat.ips.getLast? = some (lbl, addr))
    (hip : sw.ip_stat.ip = some addr)
    (v : Verdict) (hv : evalFields s.ip_config s.ip_actual s.net_obj = Except.ok v) :
    s.ip_actual.vlan = some (PyVal.str (pyStrip lbl)) ∧
    (∃ k : Int, s.ip_config.vlan = some (PyVal.int k)) ∧
    v.vlan_match = false := by
  obtain ⟨obsIp, hobs, hvl⟩ := load_obsVlan_last h hlast
  rw [hip] at hobs
  injection hobs with hobs
  subst hobs
  rw [if_pos rfl] at hvl
  obtain ⟨k, hk⟩ := load_declVlan_int h
  refine ⟨hvl, ⟨k, hk⟩, ?_⟩
  obtain ⟨im, nm, gm, cv, av, gon, him, hnm, hgm, hcv, hav, hgon, hveq⟩ := evalFields_ok hv
  rw [hk] at hcv
  rw [hvl] at hav
  injection hcv with hcv
  injection hav with hav
  subst hveq
  obtain ⟨f1, f2, f3, f4, f5⟩ := verdictOf_flags im nm gm cv av gon
  rw [f4, ← hcv, ← hav]
  simp

/-- A site with no attached network template, as left by
`match_network_template_to_site` when nothing matched. -/
def siteNoTemplate : Site := { id := "site-9", name := "Branch" }

/-- A device declaring the non-"default" network name `"mgmt"`. -/
def rawMgmt : RawSwitch :=
  { name := "sw9", id := "dev-9", mac := "001122334455",
    ip_config := { network := some "mgmt", ip := none, netmask := none, gateway := none },
    ip_stat := { ip := none, netmask := none, gateway := none, ips := [] } }

/-- Claim C1, counterexample: for a switch declaring network `"mgmt"` at a
site with no attached template, `load_switches` raises
`KeyError` — the declared VLAN is never set to 0, no error row is logged
for it, and the run does not continue to a report. -/
theorem c1_counterexample :
    load_switches [(siteNoTemplate, [rawMgmt])] = Except.error "KeyError: network_template" :=
  rfl

/-- Claim C1 (amended): for every switch whose declared network name is
present and not `"default"` but whose site has no attached template, or
whose template mapping lacks that name, normalization raises a `KeyError`,
and any `load_switches` run containing that (site, switch) pair aborts
with an error instead of producing a switch list — the switch never
reaches the report. -/
theorem c1_missing_template_aborts (site : Site) (sw : RawSwitch) (netname : String)
    (hn : sw.ip_config.network = some netname) (hne : netname ≠ "") (hnd : netname ≠ "default")
    (hmiss : site.network_template = none ∨
      ∃ nt, site.network_template = some nt ∧ assocLookup netname nt.networks = none)
    (sites : List (Site × List RawSwitch)) (sws : List RawSwitch)
    (hmem : (site, sws) ∈ sites) (hsw : sw ∈ sws) :
    (∃ e, load_one_switch site sw = Except.error e) ∧
    ∀ out, load_switches sites ≠ Except.ok out := by
  have hdecl : ∃ e, declVlanStep site sw = Except.error e := by
    simp only [declVlanStep, hn]
    rw [if_pos ⟨hne, hnd⟩]
    rcases hmiss with hm | ⟨nt, hm, hl⟩
    · rw [hm]
      exact ⟨_, rfl⟩
    · simp only [hm]
      rw [hl]
      exact ⟨_, rfl⟩
  have h1 : ∃ e, load_one_switch site sw = Except.error e := by
    unfold load_one_switch
    cases hno : netObjStep sw with
    | error e => exact ⟨e, rfl⟩
    | ok no =>
      cases hav : obsVlanStep sw with
      | error e => exact ⟨e, rfl⟩
      | ok av =>
        obtain ⟨e, he⟩ := hdecl
        rw [he]
        exact ⟨e, rfl⟩
  refine ⟨h1, ?_⟩
  intro out hok
  unfold load_switches at hok
  cases hmm : mapME (fun p => mapME (fun sw => load_one_switch p.1 sw) p.2) sites with
  | error e => rw [hmm] at hok; exact Except.noConfusion hok
  | ok nested =>
    obtain ⟨ys, hys⟩ := mapME_ok_of_mem hmm hmem
    obtain ⟨r, hr⟩ := mapME_ok_of_mem hys hsw
    obtain ⟨e, he⟩ := h1
    rw [he] at hr
    exact Except.noConfusion hr

/-- The /24 network 10.0.0.0/24 as produced by
`get_network "10.0.0.5" "255.255.255.0"`. -/
def netTen : IPv4Net := { netaddr := 167772160, plen := 24 }

/-- Claim C2, counterexample: on the malformed candidate `"10.0.0.256"`
the source raises `AddressValueError` — it does not return false. -/
theorem c2_counterexample :
    check_network_contains_ip netTen "10.0.0.256" = Except.error "AddressValueError" ∧
    check_network_contains_ip netTen "10.0.0.256" ≠ Except.ok false := by
  have hval : check_network_contains_ip netTen "10.0.0.256" = Except.error "AddressValueError" :=
    rfl
  refine ⟨hval, ?_⟩
  intro hc
  rw [hval] at hc
  exact Except.noConfusion hc

/-- Claim C2 (amended): for every network whose address is aligned to its
mask (as `get_network` always produces) and every candidate string,
`check_network_contains_ip` returns true iff the candidate parses as a
single IPv4 host address lying within the network's range, returns false
iff it parses but lies outside, and raises `AddressValueError` — rather
than returning false — exactly when the candidate does not parse. -/
theorem c2_contains_iff_range (network : IPv4Net) (address : String)
    (ha : network.netaddr % hostSize network = 0) :
    (check_network_contains_ip network address = Except.ok true ↔
       ∃ ip, parseIPv4Address address = some ip ∧
         network.netaddr ≤ ip ∧ ip ≤ network.netaddr + (hostSize network - 1)) ∧
    (check_network_contains_ip network address = Except.ok false ↔
       ∃ ip, parseIPv4Address address = some ip ∧
         ¬(network.netaddr ≤ ip ∧ ip ≤ network.netaddr + (hostSize network - 1))) ∧
    (parseIPv4Address address = none →
       check_network_contains_ip network address = Except.error "AddressValueError" ∧
       check_network_contains_ip network address ≠ Except.ok false) := by
  cases hp : parseIPv4Address address with
  | none =>
    have hval : check_network_contains_ip network address = Except.error "AddressValueError" := by
      simp only [check_network_contains_ip, hp]
    refine ⟨?_, ?_, fun _ => ⟨hval, fun hc => by rw [hval] at hc; exact Except.noConfusion hc⟩⟩
    · constructor
      · intro hc
        rw [hval] at hc
        exact Except.noConfusion hc
      · rintro ⟨ip, hip, _⟩
        exact Option.noConfusion hip
    · constructor
      · intro hc
        rw [hval] at hc
        exact Except.noConfusion hc
      · rintro ⟨ip, hip, _⟩
        exact Option.noConfusion hip
  | some ip =>
    have hval : check_network_contains_ip network address =
        (if network.containsAddr ip = true then Except.ok true else Except.ok false) := by
      simp only [check_network_contains_ip, hp]
    have hiff := containsAddr_iff_range network ip ha
    refine ⟨?_, ?_, fun hc => Option.noConfusion hc⟩
    · rw [hval]
      constructor
      · intro hc
        refine ⟨ip, rfl, ?_⟩
        rw [← hiff]
        by_cases hm : network.containsAddr ip = true
        · exact hm
        · rw [if_neg (by simp [hm])] at hc
          exact absurd hc (by simp)
      · rintro ⟨ip₂, hip₂, hrange⟩
        injection hip₂ with hip₂
        subst hip₂
        rw [if_pos (hiff.mpr hrange)]
    · rw [hval]
      constructor
      · intro hc
        refine ⟨ip, rfl, ?_⟩
        intro hrange
        rw [if_pos (hiff.mpr hrange)] at hc
        exact absurd hc (by simp)
      · rintro ⟨ip₂, hip₂, hrange⟩
        injection hip₂ with hip₂
        subst hip₂
        by_cases hm : network.containsAddr ip = true
        · exact absurd (hiff.mp hm) hrange
        · rw [if_neg (by simp [hm])]

/-- A normalized switch used to instantiate the filter claims; only its
raw MAC takes part in filtering. -/
def swInventory : Switch :=
  { name := "sw2", site := "HQ", site_id := "site-1", device_id := "dev-2",
    mac := "a1b2c3d4e5f6", mac_str := "A1:B2:C3:D4:E5:F6",
    ip_config := { network := some "default", ip := none, netmask := none, gateway := none,
                   vlan := some (PyVal.int 1) },
    ip_actual := { ip := none, netmask := none, gateway := none, ips := [],
                   vlan := some (PyVal.int 0) },
    net_obj := none }

/-- Claim C9, counterexample: with a filter list naming the same inventory
MAC twice, that one switch is evaluated twice — two rows, not one row per
matching switch (the nested list comprehension at org.py line 181 yields
one copy per filter occurrence). -/
theorem c9_counterexample :
    filterSwitches [swInventory] (some ["a1b2c3d4e5f6", "a1b2c3d4e5f6"]) =
      [swInventory, swInventory] ∧
    (check_switches [swInventory] (some ["a1b2c3d4e5f6", "a1b2c3d4e5f6"])).length = 2 :=
  ⟨rfl, rfl⟩

/-- Claim C9 (amended): when the supplied MAC filter list is nonempty and
duplicate-free, exactly the switches whose raw (unformatted) MAC is a
member of the list are evaluated, in inventory order, each producing one
row; a filter MAC absent from the inventory matches no switch and is
silently ignored.  (Duplicates in the filter evaluate a matching switch
once per occurrence, and an empty supplied list is falsy, disabling the
filter.) -/
theorem c9_filter_membership (switches : List Switch) (xs : List String)
    (hne : xs ≠ []) (hnd : xs.Nodup) :
    filterSwitches switches (some xs) = switches.filter (fun s => decide (s.mac ∈ xs)) ∧
    (check_switches switches (some xs)).length =
      (switches.filter (fun s => decide (s.mac ∈ xs))).length := by
  have hemp : xs.isEmpty = false := by
    cases hxs : xs with
    | nil => exact absurd hxs hne
    | cons y t => rfl
  have hfs : filterSwitches switches (some xs) = switches.filter (fun s => decide (s.mac ∈ xs)) := by
    simp only [filterSwitches, hemp, Bool.false_eq_true, if_false]
    exact selectRows_nodup xs hnd switches
  refine ⟨hfs, ?_⟩
  unfold check_switches
  rw [List.length_map, hfs]

/-! ## Concrete instantiations (witnesses) -/

/-- A normalized switch whose declared and observed config agree and whose
declared gateway sits on the declared /24 network. -/
def swPass : Switch :=
  { name := "sw-pass", site := "HQ", site_id := "site-1", device_id := "dev-3",
    mac := "aabbccddeeff", mac_str := "AA:BB:CC:DD:EE:FF",
    ip_config := { network := some "default", ip := some "10.0.0.5",
                   netmask := some "255.255.255.0", gateway := some "10.0.0.1",
                   vlan := some (PyVal.int 1) },
    ip_actual := { ip := some "10.0.0.5", netmask := some "255.255.255.0",
                   gateway := some "10.0.0.1", ips := [("vlan1", "10.0.0.5")],
                   vlan := some (PyVal.str "1") },
    net_obj := some netTen }

/-- The verdict `check_switches` computes for `swPass`. -/
def verdictPass : Verdict :=
  { ip_match := true, netmask_match := true, gateway_match := true, vlan_match := false,
    gateway_on_net := true, result := "PASS", reason := "None" }

/-- Witness for C3: `swPass` evaluates successfully, and the theorem's
conclusion is realized at that input. -/
theorem c3_witness :
    (verdictPass.result = "PASS" ↔ verdictPass.ip_match = true ∧
      verdictPass.gateway_match = true ∧ verdictPass.gateway_on_net = true) ∧
    (∃ nm, netmaskMatchStep swPass.ip_config swPass.ip_actual = Except.ok nm ∧
      verdictPass.netmask_match = nm) ∧
    (∃ cv av, swPass.ip_config.vlan = some cv ∧ swPass.ip_actual.vlan = some av ∧
      verdictPass.vlan_match = decide (cv = av)) :=
  c3_pass_iff_reachability swPass.ip_config swPass.ip_actual swPass.net_obj verdictPass rfl

/-- `swPass` with an observed gateway that differs from the declared one:
it fails, and both the gateway reason and the VLAN reason are in play. -/
def swFail : Switch :=
  { swPass with
    ip_actual := { ip := some "10.0.0.5", netmask := some "255.255.255.0",
                   gateway := some "10.0.0.9", ips := [("vlan1", "10.0.0.5")],
                   vlan := some (PyVal.str "1") } }

/-- The verdict `check_switches` computes for `swFail`: the VLAN reason
wins over the gateway mismatch. -/
def verdictFail : Verdict :=
  { ip_match := true, netmask_match := true, gateway_match := false, vlan_match := false,
    gateway_on_net := true, result := "FAIL",
    reason := reason_vlan (PyVal.int 1) (PyVal.str "1") }

/-- Witness for C6 at the failing switch `swFail`. -/
theorem c6_witness :
    ∃ cv av, swFail.ip_config.vlan = some cv ∧ swFail.ip_actual.vlan = some av ∧
      verdictFail.reason =
        (if verdictFail.vlan_match = false then reason_vlan cv av
         else if verdictFail.gateway_on_net = false then reason_missing_dynamic
         else initial_reason verdictFail.ip_match verdictFail.gateway_match) :=
  c6_reason_priority swFail.ip_config swFail.ip_actual swFail.net_obj verdictFail rfl rfl

/-- `swPass` after `check_switches` stored its five match flags. -/
def swPassChecked : Switch := applyVerdict swPass verdictPass

/-- Witness for C10: re-evaluating the already-evaluated `swPass`
reproduces the same state and verdict. -/
theorem c10_witness : check_one swPassChecked = Except.ok (swPassChecked, verdictPass) :=
  c10_idempotent swPass swPassChecked verdictPass rfl

/-- The switch `load_switches` builds from `rawTrailingLabel` at
`siteLab`: observed VLAN `"2"`, declared VLAN `1`, no net_obj. -/
def loadedTrail : Switch :=
  mkLoadedSwitch siteLab rawTrailingLabel none (some (PyVal.str "2")) (PyVal.int 1)

/-- Witness for C7: normalizing `rawTrailingLabel` (declared network
`"default"`) succeeds with declared VLAN 1 and nothing logged. -/
theorem c7_witness :
    (rawTrailingLabel.ip_config.network = some "default" →
      loadedTrail.ip_config.vlan = some (PyVal.int 1)) ∧
    ((rawTrailingLabel.ip_config.network = none ∨ rawTrailingLabel.ip_config.network = some "") →
      loadedTrail.ip_config.vlan = some (PyVal.int 0) ∧ false = true) :=
  c7_declared_vlan_default_and_unset siteLab rawTrailingLabel loadedTrail false rfl

/-- Witness for C8 at `loadedTrail`, which has no declared IP. -/
theorem c8_witness :
    (loadedTrail.net_obj.isSome ↔ loadedTrail.ip_config.ip.isSome) ∧
    (loadedTrail.ip_config.ip = none →
      loadedTrail.net_obj = none ∧
      ∀ v, evalFields loadedTrail.ip_config loadedTrail.ip_actual loadedTrail.net_obj =
          Except.ok v →
        v.gateway_on_net = false ∧ v.result = "FAIL") :=
  c8_net_obj_iff_declared_ip siteLab rawTrailingLabel loadedTrail false rfl

/-- A device whose first `ips` entry matches the observed IP but whose
last entry does not: the last entry wins and the observed VLAN is 0. -/
def rawEarlierMatch : RawSwitch :=
  { name := "sw4", id := "dev-4", mac := "0011aabbccdd",
    ip_config := { network := some "default", ip := none, netmask := none, gateway := none },
    ip_stat := { ip := some "10.0.0.7", netmask := none, gateway := none,
                 ips := [("vlan7", "10.0.0.7"), ("vlan9", "1.2.3.4")] } }

/-- The switch `load_switches` builds from `rawEarlierMatch`. -/
def loadedEarlierMatch : Switch :=
  mkLoadedSwitch siteLab rawEarlierMatch none (some (PyVal.int 0)) (PyVal.int 1)

/-- Witness for C4 (amended) at `rawEarlierMatch`: the earlier matching
entry is overwritten; the non-matching last entry leaves observed VLAN 0. -/
theorem c4_witness :
    (rawEarlierMatch.ip_stat.ips = [] →
      loadedEarlierMatch.ip_actual.vlan = rawEarlierMatch.ip_stat.vlan) ∧
    (∀ lbl addr, rawEarlierMatch.ip_stat.ips.getLast? = some (lbl, addr) →
       ∃ obsIp, rawEarlierMatch.ip_stat.ip = some obsIp ∧
         loadedEarlierMatch.ip_actual.vlan =
           (if obsIp = addr then some (PyVal.str (pyStrip lbl)) else some (PyVal.int 0))) :=
  c4_last_entry_wins siteLab rawEarlierMatch loadedEarlierMatch false rfl

/-- The verdict `check_switches` computes for `loadedTrail`. -/
def verdictTrail : Verdict :=
  { ip_match := false, netmask_match := false, gateway_match := false, vlan_match := false,
    gateway_on_net := false, result := "FAIL",
    reason := reason_vlan (PyVal.int 1) (PyVal.str "2") }

/-- Witness for C5 at `loadedTrail`: matching label `"2vlan"` stores the
string `"2"`, the declared VLAN is the int 1, and `vlan_match` is false. -/
theorem c5_witness :
    loadedTrail.ip_actual.vlan = some (PyVal.str (pyStrip "2vlan")) ∧
    (∃ k : Int, loadedTrail.ip_config.vlan = some (PyVal.int k)) ∧
    verdictTrail.vlan_match = false :=
  c5_vlan_type_mismatch siteLab rawTrailingLabel loadedTrail false rfl
    "2vlan" "10.0.0.5" rfl rfl verdictTrail rfl

/-- Witness for C1 (amended) at `siteNoTemplate` / `rawMgmt`. -/
theorem c1_witness :
    (∃ e, load_one_switch siteNoTemplate rawMgmt = Except.error e) ∧
    ∀ out, load_switches [(siteNoTemplate, [rawMgmt])] ≠ Except.ok out :=
  c1_missing_template_aborts siteNoTemplate rawMgmt "mgmt" rfl (by decide) (by decide)
    (Or.inl rfl) [(siteNoTemplate, [rawMgmt])] [rawMgmt] (by simp) (by simp)

/-- Witness for C2 (amended) on the aligned network 10.0.0.0/24 and the
in-range candidate `"10.0.0.5"`. -/
theorem c2_witness :
    (check_network_contains_ip netTen "10.0.0.5" = Except.ok true ↔
       ∃ ip, parseIPv4Address "10.0.0.5" = some ip ∧
         netTen.netaddr ≤ ip ∧ ip ≤ netTen.netaddr + (hostSize netTen - 1)) ∧
    (check_network_contains_ip netTen "10.0.0.5" = Except.ok false ↔
       ∃ ip, parseIPv4Address "10.0.0.5" = some ip ∧
         ¬(netTen.netaddr ≤ ip ∧ ip ≤ netTen.netaddr + (hostSize netTen - 1))) ∧
    (parseIPv4Address "10.0.0.5" = none →
       check_network_contains_ip netTen "10.0.0.5" = Except.error "AddressValueError" ∧
       check_network_contains_ip netTen "10.0.0.5" ≠ Except.ok false) :=
  c2_contains_iff_range netTen "10.0.0.5" (by decide)

/-- Witness for C9 (amended): a duplicate-free filter naming the inventory
MAC and one absent MAC — the absent MAC is ignored, the matching switch
produces one row. -/
theorem c9_witness :
    filterSwitches [swInventory] (some ["a1b2c3d4e5f6", "ffffffffffff"]) =
      [swInventory].filter (fun s => decide (s.mac ∈ ["a1b2c3d4e5f6", "ffffffffffff"])) ∧
    (check_switches [swInventory] (some ["a1b2c3d4e5f6", "ffffffffffff"])).length =
      ([swInventory].filter
        (fun s => decide (s.mac ∈ ["a1b2c3d4e5f6", "ffffffffffff"]))).length :=
  c9_filter_membership [swInventory] ["a1b2c3d4e5f6", "ffffffffffff"] (by decide) (by decide)

end SwitchIpCheck
